import Mathlib

/-
Verification of the chioma escrow custody engine.

The escrow core state machine is embedded as executable Lean functions over
an explicit world state (escrow records keyed by id, party balances, and the
funds held by the Custodian).  Party identities and the token are identifiers
(Nat); amounts are Int (the source uses i128, and no operation here can
overflow i128 on the inputs considered).  Fallible contract entry points
return Except EscrowError.
-/

namespace Chioma

/-- Escrow status, from the contract's EscrowStatus enum (re-exported by
src/contract/contracts/chioma/src/escrow/mod.rs): Pending, Funded, Released,
Disputed. -/
inductive EscrowStatus where
  | Pending
  | Funded
  | Released
  | Disputed
deriving DecidableEq, Repr, Fintype

/-- Error type of the escrow core, from
src/contract/contracts/chioma/src/escrow/errors.rs lines 8-31: eleven named
variants with contract error codes 1 through 11. -/
inductive EscrowError where
  | NotAuthorized
  | InvalidState
  | InsufficientFunds
  | AlreadySigned
  | InvalidSigner
  | DisputeActive
  | InvalidRelease
  | InvalidEscrowId
  | EscrowNotFound
  | EmptyDisputeReason
  | InvalidApprovalTarget
deriving DecidableEq, Repr, Fintype

/-- Contract error code of each EscrowError variant, the repr(u32)
discriminants assigned in errors.rs (NotAuthorized = 1 ...
InvalidApprovalTarget = 11). -/
def EscrowError.code : EscrowError → Nat
  | .NotAuthorized => 1
  | .InvalidState => 2
  | .InsufficientFunds => 3
  | .AlreadySigned => 4
  | .InvalidSigner => 5
  | .DisputeActive => 6
  | .InvalidRelease => 7
  | .InvalidEscrowId => 8
  | .EscrowNotFound => 9
  | .EmptyDisputeReason => 10
  | .InvalidApprovalTarget => 11

/-- Modelled from the spec: the Escrow record of escrow/types.rs, which is
absent from the repository snapshot (only mod.rs re-exports it).  Fields
follow spec section 3: fixed parties, custody amount, status, optional
dispute reason, and per-release-target approvals.  `approvals` is the list
of (target, party) pairs recorded so far; the set of approvers of a target t
is the set of parties p with (t, p) in the list. -/
structure Escrow where
  id : Nat
  depositor : Nat
  beneficiary : Nat
  arbiter : Nat
  amount : Int
  token : Nat
  status : EscrowStatus
  dispute_reason : Option String
  approvals : List (Nat × Nat)
deriving DecidableEq, Repr

/-- World state threaded through every operation: the Record Store of escrow
records keyed by id, the fresh-id counter, each party's token balance, and
the funds physically held by the Custodian (the contract's own token
balance). -/
structure World where
  escrows : Nat → Option Escrow
  next_id : Nat
  bal : Nat → Int
  custodian : Int

/-- Number of distinct parties that have approved releasing to `target`
(spec section 4.3: the Approval Tracker's per-target count; the AlreadySigned
guard in approve_release keeps the recorded pairs distinct). -/
def count_for (approvals : List (Nat × Nat)) (target : Nat) : Nat :=
  (approvals.filter (fun p => p.1 = target)).length

/-- Custodian.payout(to, amount): moves `amount` from the Custodian's
holdings to `target`'s balance (spec section 6). -/
def payout (w : World) (target : Nat) (amount : Int) : World :=
  { w with
    custodian := w.custodian - amount
    bal := fun a => if a = target then w.bal a + amount else w.bal a }

/-- Transactional view of an operation: on success the new world, on error
the unchanged prior world (spec section 5: every transition is atomic; a
failed operation commits nothing). -/
def commit (w : World) : Except EscrowError World → World
  | .ok w' => w'
  | .error _ => w

/-- Modelled from the spec: `create` of escrow/escrow_impl.rs, which is
absent from the repository snapshot (only mod.rs, errors.rs and tests.rs are
present).  Spec section 4.2: requires depositor authentication (`authed`);
requires amount > 0, else InsufficientFunds; requires the three identities
pairwise distinct (the spec leaves this failure's kind unnamed; InvalidSigner
is used here); assigns a fresh id from the counter; initial status Pending;
no funds move. -/
def create (w : World) (authed : Bool) (depositor beneficiary arbiter : Nat)
    (amount : Int) (token : Nat) : Except EscrowError (World × Nat) :=
  if !authed then .error .NotAuthorized
  else if amount ≤ 0 then .error .InsufficientFunds
  else if depositor = beneficiary ∨ depositor = arbiter ∨ beneficiary = arbiter then
    .error .InvalidSigner
  else
    let e : Escrow :=
      ⟨w.next_id, depositor, beneficiary, arbiter, amount, token, .Pending, none, []⟩
    .ok ({ w with
            escrows := fun i => if i = w.next_id then some e else w.escrows i
            next_id := w.next_id + 1 }, w.next_id)

/-- Modelled from the spec: `fund_escrow` of escrow/escrow_impl.rs (file
absent from the snapshot).  Spec section 4.2: requires caller == stored
depositor and status == Pending, else NotAuthorized / InvalidState; the
authorization check happens before any Custodian call (tests.rs line 119);
then invokes Custodian.deposit(depositor, amount), which fails when the
depositor's balance is short, in which case the escrow stays Pending; on
success the Custodian holds `amount` and status becomes Funded. -/
def fund_escrow (w : World) (id caller : Nat) : Except EscrowError World :=
  match w.escrows id with
  | none => .error .EscrowNotFound
  | some e =>
    if caller ≠ e.depositor then .error .NotAuthorized
    else if e.status ≠ .Pending then .error .InvalidState
    else if w.bal e.depositor < e.amount then .error .InsufficientFunds
    else
      .ok { w with
        bal := fun a => if a = e.depositor then w.bal a - e.amount else w.bal a
        custodian := w.custodian + e.amount
        escrows := fun i =>
          if i = id then some { e with status := .Funded } else w.escrows i }

/-- Modelled from the spec: `approve_release` of escrow/escrow_impl.rs (file
absent from the snapshot).  Spec section 4.2: requires status == Funded, else
InvalidState; requires target beneficiary or depositor, else
InvalidApprovalTarget; requires the caller be one of the three registered
parties, else InvalidSigner, and not already an approver of this target,
else AlreadySigned; records the approval; when the target's distinct-party
count reaches quorum 2, invokes Custodian.payout(target, amount) and sets
status = Released. -/
def approve_release (w : World) (id caller target : Nat) :
    Except EscrowError World :=
  match w.escrows id with
  | none => .error .EscrowNotFound
  | some e =>
    if e.status ≠ .Funded then .error .InvalidState
    else if target ≠ e.beneficiary ∧ target ≠ e.depositor then
      .error .InvalidApprovalTarget
    else if caller ≠ e.depositor ∧ caller ≠ e.beneficiary ∧ caller ≠ e.arbiter then
      .error .InvalidSigner
    else if (target, caller) ∈ e.approvals then .error .AlreadySigned
    else
      let approvals' := (target, caller) :: e.approvals
      if 2 ≤ count_for approvals' target then
        .ok (payout
          { w with escrows := fun i =>
              if i = id then some { e with status := .Released, approvals := approvals' }
              else w.escrows i }
          target e.amount)
      else
        .ok { w with escrows := fun i =>
            if i = id then some { e with approvals := approvals' } else w.escrows i }

/-- Modelled from the spec: `initiate_dispute` of escrow/dispute.rs and
escrow_impl.rs (files absent from the snapshot).  Spec section 4.2: requires
status == Funded; requires caller depositor or beneficiary; requires the
reason non-empty, else EmptyDisputeReason; sets status = Disputed and stores
the reason; no funds move. -/
def initiate_dispute (w : World) (id caller : Nat) (reason : String) :
    Except EscrowError World :=
  match w.escrows id with
  | none => .error .EscrowNotFound
  | some e =>
    if e.status ≠ .Funded then .error .InvalidState
    else if caller ≠ e.depositor ∧ caller ≠ e.beneficiary then .error .NotAuthorized
    else if reason = "" then .error .EmptyDisputeReason
    else
      .ok { w with escrows := fun i =>
          if i = id then some { e with status := .Disputed, dispute_reason := some reason }
          else w.escrows i }

/-- Modelled from the spec: `resolve_dispute` of escrow/dispute.rs and
escrow_impl.rs (files absent from the snapshot).  Spec section 4.2: requires
status == Disputed, else InvalidState; requires caller == stored arbiter,
else NotAuthorized; requires target depositor or beneficiary, else
InvalidRelease; invokes Custodian.payout(target, amount); sets status =
Released regardless of which target was chosen. -/
def resolve_dispute (w : World) (id caller target : Nat) :
    Except EscrowError World :=
  match w.escrows id with
  | none => .error .EscrowNotFound
  | some e =>
    if e.status ≠ .Disputed then .error .InvalidState
    else if caller ≠ e.arbiter then .error .NotAuthorized
    else if target ≠ e.depositor ∧ target ≠ e.beneficiary then .error .InvalidRelease
    else
      .ok (payout
        { w with escrows := fun i =>
            if i = id then some { e with status := .Released } else w.escrows i }
        target e.amount)

/-- Modelled from the spec: the `get_escrow` query (spec section 4.2): a pure
read; a missing id yields EscrowNotFound. -/
def get_escrow (w : World) (id : Nat) : Except EscrowError Escrow :=
  match w.escrows id with
  | none => .error .EscrowNotFound
  | some e => .ok e

/-- Modelled from the spec: the `get_approval_count` query (spec section
4.2): the distinct-party approval count for a target; a missing id yields
EscrowNotFound. -/
def get_approval_count (w : World) (id target : Nat) : Except EscrowError Nat :=
  match w.escrows id with
  | none => .error .EscrowNotFound
  | some e => .ok (count_for e.approvals target)

/-- Commit for create, which also returns the assigned id. -/
def commitCreate (w : World) : Except EscrowError (World × Nat) → World
  | .ok p => p.1
  | .error _ => w

/-- Boolean success test for an escrow operation result. -/
def isOkW : Except EscrowError World → Bool
  | .ok _ => true
  | .error _ => false

/-- Boolean success test for a create result. -/
def isOkC : Except EscrowError (World × Nat) → Bool
  | .ok _ => true
  | .error _ => false

/-
Concrete worlds used by the lifecycle scenario and the witnesses.  Parties:
depositor 0, beneficiary 1, arbiter 2; token 7; amount 1000.
-/

/-- Empty initial world; the depositor holds 1000 tokens (minted in
tests.rs test_escrow_lifecycle), the Custodian holds 0. -/
def exW0 : World :=
  { escrows := fun _ => none
    next_id := 0
    bal := fun a => if a = 0 then (1000 : Int) else 0
    custodian := 0 }

/-- World after create(D=0, B=1, A=2, 1000, token 7) in exW0. -/
def exW1 : World := commitCreate exW0 (create exW0 true 0 1 2 1000 7)

/-- World after fund_escrow by the depositor in exW1. -/
def exW2 : World := commit exW1 (fund_escrow exW1 0 0)

/-- World after the depositor's approval of release to the beneficiary. -/
def exW3 : World := commit exW2 (approve_release exW2 0 0 1)

/-- World after the arbiter's approval of release to the beneficiary. -/
def exW4 : World := commit exW3 (approve_release exW3 0 2 1)

/-- Claim C1: happy-path lifecycle for an escrow created with depositor D=0,
beneficiary B=1, arbiter A=2 and amount 1000: create yields status Pending
with the Custodian holding 0; fund by D yields status Funded with the
Custodian holding 1000; a first approve_release by D for target B yields
approval count 1 with status still Funded; a second approve_release by A for
target B yields status Released, the beneficiary credited exactly 1000, and
the Custodian holding 0. -/
theorem escrow_happy_path_lifecycle :
    isOkC (create exW0 true 0 1 2 1000 7) = true ∧
    (exW1.escrows 0).map Escrow.status = some .Pending ∧
    exW1.custodian = 0 ∧
    isOkW (fund_escrow exW1 0 0) = true ∧
    (exW2.escrows 0).map Escrow.status = some .Funded ∧
    exW2.custodian = 1000 ∧
    exW2.bal 0 = 0 ∧
    isOkW (approve_release exW2 0 0 1) = true ∧
    (get_approval_count exW3 0 1).toOption = some 1 ∧
    (exW3.escrows 0).map Escrow.status = some .Funded ∧
    isOkW (approve_release exW3 0 2 1) = true ∧
    (exW4.escrows 0).map Escrow.status = some .Released ∧
    exW4.bal 1 = 1000 ∧
    exW4.custodian = 0 := by
  decide

/-- Claim C8: the escrow core's error type consists of exactly the eleven
named kinds of the spec's taxonomy, each a distinct named variant (their
contract error codes are pairwise distinct), so every failure mode of the
core is one of these kinds. -/
theorem escrow_error_taxonomy :
    (∀ e : EscrowError,
      e = .NotAuthorized ∨ e = .InvalidState ∨ e = .InsufficientFunds ∨
      e = .AlreadySigned ∨ e = .InvalidSigner ∨ e = .DisputeActive ∨
      e = .InvalidRelease ∨ e = .InvalidEscrowId ∨ e = .EscrowNotFound ∨
      e = .EmptyDisputeReason ∨ e = .InvalidApprovalTarget) ∧
    (∀ e1 e2 : EscrowError, EscrowError.code e1 = EscrowError.code e2 → e1 = e2) := by
  decide

/-- A released escrow record used by witnesses. -/
def exRel : Escrow := ⟨0, 0, 1, 2, 1000, 7, .Released, none, [(1, 0), (1, 2)]⟩

/-- World whose escrow 0 is Released; the beneficiary was paid, the
Custodian holds 0. -/
def exWRel : World :=
  { escrows := fun i => if i = 0 then some exRel else none
    next_id := 1
    bal := fun a => if a = 1 then (1000 : Int) else 0
    custodian := 0 }

/-- A disputed escrow record used by witnesses. -/
def exDis : Escrow := ⟨0, 0, 1, 2, 1000, 7, .Disputed, some "late", []⟩

/-- World whose escrow 0 is Disputed; the Custodian still holds 1000. -/
def exWDis : World :=
  { escrows := fun i => if i = 0 then some exDis else none
    next_id := 1
    bal := fun _ => (0 : Int)
    custodian := 1000 }

/-- Claim C2: release is exactly-once.  Once an escrow's status is Released,
every approve_release and every resolve_dispute on that id fails with
InvalidState, and no operation whatsoever (fund_escrow and initiate_dispute
included) commits a change: the transactional result of every call is the
unchanged world, so no transition leaves the Released state. -/
theorem released_is_terminal (w : World) (id : Nat) (e : Escrow)
    (h : w.escrows id = some e) (hs : e.status = .Released) :
    (∀ c t, approve_release w id c t = .error .InvalidState) ∧
    (∀ c t, resolve_dispute w id c t = .error .InvalidState) ∧
    (∀ c, commit w (fund_escrow w id c) = w) ∧
    (∀ c r, commit w (initiate_dispute w id c r) = w) ∧
    (∀ c t, commit w (approve_release w id c t) = w) ∧
    (∀ c t, commit w (resolve_dispute w id c t) = w) := by
  have hap : ∀ c t, approve_release w id c t = .error .InvalidState := by
    intro c t
    simp [approve_release, h, hs]
  have hrd : ∀ c t, resolve_dispute w id c t = .error .InvalidState := by
    intro c t
    simp [resolve_dispute, h, hs]
  have hfd : ∀ c, commit w (fund_escrow w id c) = w := by
    intro c
    by_cases hc : c = e.depositor
    · simp [fund_escrow, h, hs, hc, commit]
    · simp [fund_escrow, h, hc, commit]
  have hin : ∀ c r, commit w (initiate_dispute w id c r) = w := by
    intro c r
    simp [initiate_dispute, h, hs, commit]
  refine ⟨hap, hrd, hfd, hin, ?_, ?_⟩
  · intro c t
    rw [hap c t]
    rfl
  · intro c t
    rw [hrd c t]
    rfl

/-- Witness for released_is_terminal at the concrete Released world exWRel:
both mutating calls fail with InvalidState. -/
theorem released_is_terminal_witness :
    approve_release exWRel 0 0 1 = .error .InvalidState ∧
    resolve_dispute exWRel 0 2 0 = .error .InvalidState := by
  have h := released_is_terminal exWRel 0 exRel rfl rfl
  exact ⟨h.1 0 1, h.2.1 2 0⟩

/-- Claim C3: resolve_dispute on a Disputed escrow.  When the caller is not
the stored arbiter it fails with NotAuthorized; when the caller is the
arbiter and the target is the depositor or the beneficiary, it pays the
chosen target exactly `amount` (the target's balance rises by `amount` and
the Custodian's holdings fall by `amount`) and sets status to Released,
regardless of which of the two targets was chosen. -/
theorem resolve_dispute_spec (w : World) (id : Nat) (e : Escrow)
    (h : w.escrows id = some e) (hs : e.status = .Disputed) :
    (∀ c t, c ≠ e.arbiter → resolve_dispute w id c t = .error .NotAuthorized) ∧
    (∀ t, t = e.depositor ∨ t = e.beneficiary →
      ∃ w', resolve_dispute w id e.arbiter t = .ok w' ∧
        (w'.escrows id).map Escrow.status = some .Released ∧
        w'.bal t = w.bal t + e.amount ∧
        w'.custodian = w.custodian - e.amount) := by
  constructor
  · intro c t hc
    simp [resolve_dispute, h, hs, hc]
  · intro t ht
    have htarget : ¬(t ≠ e.depositor ∧ t ≠ e.beneficiary) := by
      rcases ht with ht | ht <;> simp [ht]
    refine ⟨payout
      { w with escrows := fun i =>
          if i = id then some { e with status := .Released } else w.escrows i }
      t e.amount, ?_, ?_, ?_, ?_⟩
    · simp [resolve_dispute, h, hs, htarget]
    · simp [payout]
    · simp [payout]
    · simp [payout]

/-- Witness for resolve_dispute_spec at the concrete Disputed world exWDis:
a non-arbiter caller (the beneficiary, party 1) is rejected, and the arbiter
resolving toward the depositor refunds exactly 1000. -/
theorem resolve_dispute_spec_witness :
    resolve_dispute exWDis 0 1 0 = .error .NotAuthorized ∧
    ∃ w', resolve_dispute exWDis 0 2 0 = .ok w' ∧
      (w'.escrows 0).map Escrow.status = some .Released ∧
      w'.bal 0 = exWDis.bal 0 + 1000 ∧
      w'.custodian = exWDis.custodian - 1000 := by
  have h := resolve_dispute_spec exWDis 0 exDis rfl rfl
  exact ⟨h.1 1 0 (by decide), h.2 0 (Or.inl rfl)⟩

/-- Recording one more approval for a target raises that target's
distinct-party count by one. -/
theorem count_for_cons (l : List (Nat × Nat)) (t c : Nat) :
    count_for ((t, c) :: l) t = count_for l t + 1 := by
  simp [count_for]

/-- A funded escrow record with one recorded approval (target 1 by party 0),
used by witnesses. -/
def exFun : Escrow := ⟨0, 0, 1, 2, 1000, 7, .Funded, none, [(1, 0)]⟩

/-- World whose escrow 0 is Funded with one approval recorded; the Custodian
holds 1000. -/
def exWFun : World :=
  { escrows := fun i => if i = 0 then some exFun else none
    next_id := 1
    bal := fun _ => (0 : Int)
    custodian := 1000 }

/-- Claim C4: quorum is 2 distinct parties of the fixed set {depositor,
beneficiary, arbiter} per release target.  For a Funded escrow, a valid
target and a caller who is one of the three parties: a repeated
approve_release by a party already recorded for that target fails with
AlreadySigned and leaves the target's approval count unchanged, while an
approval by a party not yet recorded, when one distinct party already
approved that target, reaches quorum and triggers payout to the target with
status Released. -/
theorem approve_release_quorum (w : World) (id : Nat) (e : Escrow)
    (h : w.escrows id = some e) (hs : e.status = .Funded)
    (caller target : Nat)
    (ht : target = e.beneficiary ∨ target = e.depositor)
    (hc : caller = e.depositor ∨ caller = e.beneficiary ∨ caller = e.arbiter) :
    ((target, caller) ∈ e.approvals →
      approve_release w id caller target = .error .AlreadySigned ∧
      get_approval_count (commit w (approve_release w id caller target)) id target =
        get_approval_count w id target) ∧
    ((target, caller) ∉ e.approvals → 1 ≤ count_for e.approvals target →
      ∃ w', approve_release w id caller target = .ok w' ∧
        (w'.escrows id).map Escrow.status = some .Released ∧
        w'.bal target = w.bal target + e.amount ∧
        w'.custodian = w.custodian - e.amount) := by
  have htarget : ¬(target ≠ e.beneficiary ∧ target ≠ e.depositor) := by
    rcases ht with ht | ht <;> simp [ht]
  have hcaller : ¬(caller ≠ e.depositor ∧ caller ≠ e.beneficiary ∧ caller ≠ e.arbiter) := by
    rcases hc with hc | hc | hc <;> simp [hc]
  constructor
  · intro hmem
    have herr : approve_release w id caller target = .error .AlreadySigned := by
      simp [approve_release, h, hs, htarget, hcaller, hmem]
    refine ⟨herr, ?_⟩
    rw [herr]
    rfl
  · intro hmem hone
    have hq : 2 ≤ count_for ((target, caller) :: e.approvals) target := by
      rw [count_for_cons]
      omega
    refine ⟨payout
      { w with escrows := fun i =>
          if i = id then
            some { e with status := .Released,
                          approvals := (target, caller) :: e.approvals }
          else w.escrows i }
      target e.amount, ?_, ?_, ?_, ?_⟩
    · simp [approve_release, h, hs, htarget, hcaller, hmem, hq]
    · simp [payout]
    · simp [payout]
    · simp [payout]

/-- Witness for approve_release_quorum at the concrete Funded world exWFun,
whose escrow has one approval of target 1 by party 0: party 0 approving
target 1 again fails with AlreadySigned, while the arbiter's approval of
target 1 reaches quorum, releases, and pays target 1 exactly 1000. -/
theorem approve_release_quorum_witness :
    approve_release exWFun 0 0 1 = .error .AlreadySigned ∧
    (∃ w', approve_release exWFun 0 2 1 = .ok w' ∧
      (w'.escrows 0).map Escrow.status = some .Released ∧
      w'.bal 1 = exWFun.bal 1 + 1000 ∧
      w'.custodian = exWFun.custodian - 1000) := by
  have hdup := approve_release_quorum exWFun 0 exFun rfl rfl 0 1
    (Or.inl rfl) (Or.inl rfl)
  have hrel := approve_release_quorum exWFun 0 exFun rfl rfl 2 1
    (Or.inl rfl) (Or.inr (Or.inr rfl))
  exact ⟨(hdup.1 (by decide)).1, hrel.2 (by decide) (by decide)⟩

/-- Claim C5: initiate_dispute succeeds iff the escrow's status is Funded,
the caller is the depositor or the beneficiary, and the reason is non-empty;
an empty reason under the other two conditions fails with
EmptyDisputeReason; and a successful call sets status to Disputed, stores
the reason, and moves no funds (balances and Custodian holdings are
unchanged). -/
theorem initiate_dispute_spec (w : World) (id : Nat) (e : Escrow)
    (h : w.escrows id = some e) (caller : Nat) (reason : String) :
    ((∃ w', initiate_dispute w id caller reason = .ok w') ↔
      e.status = .Funded ∧ (caller = e.depositor ∨ caller = e.beneficiary) ∧
        reason ≠ "") ∧
    (e.status = .Funded → (caller = e.depositor ∨ caller = e.beneficiary) →
      reason = "" →
      initiate_dispute w id caller reason = .error .EmptyDisputeReason) ∧
    (∀ w', initiate_dispute w id caller reason = .ok w' →
      w'.escrows id =
        some { e with status := .Disputed, dispute_reason := some reason } ∧
      w'.bal = w.bal ∧ w'.custodian = w.custodian) := by
  have heq : initiate_dispute w id caller reason =
      (if e.status ≠ .Funded then .error .InvalidState
       else if caller ≠ e.depositor ∧ caller ≠ e.beneficiary then
         .error .NotAuthorized
       else if reason = "" then .error .EmptyDisputeReason
       else
         .ok { w with escrows := fun i =>
             if i = id then (some { e with status := .Disputed, dispute_reason := some reason }) else w.escrows i }) := by
    simp only [initiate_dispute, h]
  rw [heq]
  split_ifs with hst hca hre
  · simp_all
  · simp_all
  · simp_all
  · simp_all
    tauto

/-- Witness for initiate_dispute_spec: in the Funded world exWFun, the
beneficiary (party 1) disputing with a non-empty reason succeeds, an empty
reason fails with EmptyDisputeReason, and the successful call stores the
reason with status Disputed and moves no funds. -/
theorem initiate_dispute_spec_witness :
    (∃ w', initiate_dispute exWFun 0 1 "late" = .ok w') ∧
    initiate_dispute exWFun 0 1 "" = .error .EmptyDisputeReason := by
  have h := initiate_dispute_spec exWFun 0 exFun rfl 1 "late"
  have h2 := initiate_dispute_spec exWFun 0 exFun rfl 1 ""
  refine ⟨h.1.mpr ⟨rfl, Or.inr rfl, by decide⟩, h2.2.1 rfl (Or.inr rfl) rfl⟩

/-- A pending escrow record used by witnesses. -/
def exPen : Escrow := ⟨0, 0, 1, 2, 1000, 7, .Pending, none, []⟩

/-- World whose escrow 0 is Pending and whose depositor holds only 5 tokens,
so a Custodian deposit of 1000 must fail. -/
def exWPen : World :=
  { escrows := fun i => if i = 0 then some exPen else none
    next_id := 1
    bal := fun a => if a = 0 then (5 : Int) else 0
    custodian := 0 }

/-- Claim C6: fund is atomic and authorization-gated.  A fund attempt by any
caller other than the stored depositor fails with NotAuthorized for every
possible balance assignment, hence before and independent of any Custodian
call, and the committed world still has the escrow Pending.  If the caller
is the depositor but the Custodian deposit itself fails (balance short of
`amount`), the call errors, the committed world keeps the escrow Pending,
and neither the Custodian's holdings nor any balance changes. -/
theorem fund_authorization_atomicity (w : World) (id : Nat) (e : Escrow)
    (caller : Nat) (h : w.escrows id = some e) (hp : e.status = .Pending) :
    (caller ≠ e.depositor →
      (∀ b : Nat → Int,
        fund_escrow { w with bal := b } id caller = .error .NotAuthorized) ∧
      ((commit w (fund_escrow w id caller)).escrows id).map Escrow.status =
        some .Pending) ∧
    (caller = e.depositor → w.bal e.depositor < e.amount →
      fund_escrow w id caller = .error .InsufficientFunds ∧
      ((commit w (fund_escrow w id caller)).escrows id).map Escrow.status =
        some .Pending ∧
      (commit w (fund_escrow w id caller)).custodian = w.custodian ∧
      (commit w (fund_escrow w id caller)).bal = w.bal) := by
  constructor
  · intro hc
    have hall : ∀ b : Nat → Int,
        fund_escrow { w with bal := b } id caller = .error .NotAuthorized := by
      intro b
      simp [fund_escrow, h, hc]
    refine ⟨hall, ?_⟩
    have hw : fund_escrow w id caller = .error .NotAuthorized := by
      simp [fund_escrow, h, hc]
    rw [hw]
    simp [commit, h, hp]
  · intro hc hb
    have hw : fund_escrow w id caller = .error .InsufficientFunds := by
      simp [fund_escrow, h, hc, hp, hb]
    rw [hw]
    simp [commit, h, hp]

/-- Witness for fund_authorization_atomicity at the concrete Pending world
exWPen: the beneficiary (party 1) cannot fund, and a depositor whose balance
(5) is short of the amount (1000) leaves the escrow Pending with the
Custodian untouched. -/
theorem fund_authorization_atomicity_witness :
    fund_escrow exWPen 0 1 = .error .NotAuthorized ∧
    fund_escrow exWPen 0 0 = .error .InsufficientFunds ∧
    ((commit exWPen (fund_escrow exWPen 0 0)).escrows 0).map Escrow.status =
      some .Pending ∧
    (commit exWPen (fund_escrow exWPen 0 0)).custodian = exWPen.custodian := by
  have h := fund_authorization_atomicity exWPen 0 exPen 1 rfl rfl
  have h0 := fund_authorization_atomicity exWPen 0 exPen 0 rfl rfl
  have h0' := h0.2 rfl (by decide)
  exact ⟨by
    have := (h.1 (by decide)).1 exWPen.bal
    simpa using this, h0'.1, h0'.2.1, h0'.2.2.1⟩

/-- Claim C7: create requires depositor authentication (failing with
NotAuthorized otherwise), requires amount > 0 (failing with
InsufficientFunds otherwise), requires the depositor, beneficiary, and
arbiter identities to be pairwise distinct (failing otherwise), assigns the
fresh counter id (unused in the prior world), sets the initial status to
Pending, and moves no funds (balances and Custodian holdings unchanged). -/
theorem create_spec (w : World) (authed : Bool) (d b a : Nat)
    (amount : Int) (token : Nat) :
    (authed = false →
      create w authed d b a amount token = .error .NotAuthorized) ∧
    (authed = true → amount ≤ 0 →
      create w authed d b a amount token = .error .InsufficientFunds) ∧
    (authed = true → 0 < amount → (d = b ∨ d = a ∨ b = a) →
      ∃ err, create w authed d b a amount token = .error err) ∧
    (authed = true → 0 < amount → d ≠ b → d ≠ a → b ≠ a →
      w.escrows w.next_id = none →
      ∃ w', create w authed d b a amount token = .ok (w', w.next_id) ∧
        w'.escrows w.next_id =
          some ⟨w.next_id, d, b, a, amount, token, .Pending, none, []⟩ ∧
        w'.next_id = w.next_id + 1 ∧
        w'.bal = w.bal ∧ w'.custodian = w.custodian) := by
  refine ⟨?_, ?_, ?_, ?_⟩
  · intro ha
    simp [create, ha]
  · intro ha hle
    simp [create, ha, hle]
  · intro ha hpos hdup
    refine ⟨.InvalidSigner, ?_⟩
    simp [create, ha, not_le.mpr hpos, hdup]
  · intro ha hpos hdb hda hba hfresh
    have hdup : ¬(d = b ∨ d = a ∨ b = a) := by simp [hdb, hda, hba]
    refine ⟨{ w with
        escrows := fun i =>
          if i = w.next_id then (some ⟨w.next_id, d, b, a, amount, token, .Pending, none, []⟩) else w.escrows i
        next_id := w.next_id + 1 }, ?_, ?_, rfl, rfl, rfl⟩
    · simp [create, ha, not_le.mpr hpos, hdup]
    · simp

/-- Witness for create_spec in the empty world exW0: an unauthenticated
create fails, a zero amount fails with InsufficientFunds, duplicate parties
fail, and the valid call assigns id 0 with status Pending and moves no
funds. -/
theorem create_spec_witness :
    create exW0 false 0 1 2 1000 7 = .error .NotAuthorized ∧
    create exW0 true 0 1 2 0 7 = .error .InsufficientFunds ∧
    (∃ err, create exW0 true 0 0 2 1000 7 = .error err) ∧
    (∃ w', create exW0 true 0 1 2 1000 7 = .ok (w', exW0.next_id) ∧
      w'.escrows exW0.next_id =
        some ⟨exW0.next_id, 0, 1, 2, 1000, 7, .Pending, none, []⟩ ∧
      w'.next_id = exW0.next_id + 1 ∧
      w'.bal = exW0.bal ∧ w'.custodian = exW0.custodian) := by
  refine ⟨(create_spec exW0 false 0 1 2 1000 7).1 rfl,
    (create_spec exW0 true 0 1 2 0 7).2.1 rfl (by decide),
    (create_spec exW0 true 0 0 2 1000 7).2.2.1 rfl (by decide) (Or.inl rfl),
    (create_spec exW0 true 0 1 2 1000 7).2.2.2 rfl (by decide) (by decide)
      (by decide) (by decide) rfl⟩

/-
Rent-agreement side of the contract, src/contract/contracts/chioma/src/lib.rs.
-/

/-- Contract error enum of lib.rs lines 15-28 (only the variants relevant to
the verified operations are exercised below). -/
inductive ContractError where
  | AgreementAlreadyExists
  | InvalidAmount
  | InvalidDate
  | InvalidCommissionRate
  | PaymentNotFound
  | InvalidAccountType
  | InvalidDataHash
  | ProfileNotFound
  | RateLimited
deriving DecidableEq, Repr

/-- Modelled from the spec: PaymentRecord of types.rs, which is absent from
the repository snapshot; the two fields are the ones get_total_paid in
lib.rs reads (payment.agreement_id and payment.amount). -/
structure PaymentRecord where
  agreement_id : String
  amount : Int
deriving DecidableEq, Repr

/-- Persistent payment storage visible to get_total_paid: the persistent map
from string payment ids to records (DataKey::Payment) and the instance
PaymentCount counter. -/
structure LedgerStore where
  payments : String → Option PaymentRecord
  payment_count : Nat

/-- u32_to_string of lib.rs lines 271-286: the decimal string for 0 through
10, and the string "unknown" for every larger number. -/
def u32_to_string (num : Nat) : String :=
  match num with
  | 0 => "0"
  | 1 => "1"
  | 2 => "2"
  | 3 => "3"
  | 4 => "4"
  | 5 => "5"
  | 6 => "6"
  | 7 => "7"
  | 8 => "8"
  | 9 => "9"
  | 10 => "10"
  | _ => "unknown"

/-- Loop body of get_total_paid (lib.rs lines 187-198): look up the payment
stored under the string id of index i and add its amount to the running
total when its agreement matches. -/
def gtpStep (st : LedgerStore) (agreement_id : String) (total : Int)
    (i : Nat) : Int :=
  match st.payments (u32_to_string i) with
  | some payment =>
    if payment.agreement_id = agreement_id then total + payment.amount else total
  | none => total

/-- get_total_paid of lib.rs lines 178-201: fold the loop body over the
indices 0 .. payment_count (the Rust function always returns Ok, so the
result is the plain total). -/
def get_total_paid (st : LedgerStore) (agreement_id : String) : Int :=
  (List.range st.payment_count).foldl (gtpStep st agreement_id) 0

/-- When nothing is stored under the key "unknown", an iteration at an index
above 10 contributes nothing to the total. -/
theorem gtpStep_high (st : LedgerStore) (ag : String)
    (hu : st.payments "unknown" = none) (t : Int) (i : Nat) (hi : 10 < i) :
    gtpStep st ag t i = t := by
  have hkey : u32_to_string i = "unknown" := by
    obtain ⟨m, rfl⟩ : ∃ m, i = m + 11 := ⟨i - 11, by omega⟩
    rfl
  simp [gtpStep, hkey, hu]

/-- When nothing is stored under "unknown", folding the loop body over any
range of length at least 11 equals folding it over the first 11 indices. -/
theorem gtp_trunc (st : LedgerStore) (ag : String)
    (hu : st.payments "unknown" = none) :
    ∀ n, 11 ≤ n →
      (List.range n).foldl (gtpStep st ag) 0 =
        (List.range 11).foldl (gtpStep st ag) 0 := by
  intro n hn
  induction n, hn using Nat.le_induction with
  | base => rfl
  | succ n hn ih =>
    rw [List.range_succ, List.foldl_append, List.foldl_cons, List.foldl_nil,
      gtpStep_high st ag hu _ n (by omega), ih]

/-- Two stores with the same count that agree under the keys "0" through
"10" produce the same fold over a list of indices at most 10. -/
theorem gtp_congr (st st' : LedgerStore) (ag : String)
    (hagree : ∀ i, i ≤ 10 →
      st'.payments (u32_to_string i) = st.payments (u32_to_string i)) :
    ∀ (l : List Nat), (∀ i ∈ l, i ≤ 10) → ∀ t : Int,
      l.foldl (gtpStep st' ag) t = l.foldl (gtpStep st ag) t := by
  intro l
  induction l with
  | nil => intro _ t; rfl
  | cons i l ih =>
    intro hmem t
    rw [List.foldl_cons, List.foldl_cons]
    have hstep : gtpStep st' ag t i = gtpStep st ag t i := by
      simp [gtpStep, hagree i (hmem i (by simp))]
    rw [hstep]
    exact ih (fun j hj => hmem j (by simp [hj])) _

/-- Claim C9: get_total_paid only ever sums PaymentRecords stored under the
decimal-string ids "0" through "10" (as long as nothing sits under the
sentinel key "unknown"): u32_to_string maps every index greater than 10 to
"unknown", so every loop iteration past index 10 looks up the key "unknown";
the total equals the total over count capped at 11; and any payment stored
under any other key — in particular the decimal id of an index greater than
10, such as "11" — is silently omitted: stores agreeing under "0" .. "10"
(and empty at "unknown") yield the same total whatever else they hold. -/
theorem get_total_paid_key_range (st : LedgerStore) (ag : String)
    (hu : st.payments "unknown" = none) :
    (∀ n, 10 < n → u32_to_string n = "unknown") ∧
    get_total_paid st ag =
      get_total_paid { st with payment_count := min st.payment_count 11 } ag ∧
    (∀ st' : LedgerStore, st'.payment_count = st.payment_count →
      st'.payments "unknown" = none →
      (∀ i, i ≤ 10 →
        st'.payments (u32_to_string i) = st.payments (u32_to_string i)) →
      get_total_paid st' ag = get_total_paid st ag) := by
  have hname : ∀ n, 10 < n → u32_to_string n = "unknown" := by
    intro n hn
    obtain ⟨m, rfl⟩ : ∃ m, n = m + 11 := ⟨n - 11, by omega⟩
    rfl
  have hcap : ∀ (s : LedgerStore), s.payments = st.payments →
      s.payments "unknown" = none →
      get_total_paid s ag =
        (List.range (min s.payment_count 11)).foldl (gtpStep s ag) 0 := by
    intro s hsp hsu
    rcases le_or_lt s.payment_count 11 with hle | hlt
    · rw [get_total_paid, Nat.min_eq_left hle]
    · rw [get_total_paid, Nat.min_eq_right (by omega),
        gtp_trunc s ag hsu s.payment_count (by omega)]
  refine ⟨hname, ?_, ?_⟩
  · have h1 := hcap st rfl hu
    have h2 := hcap { st with payment_count := min st.payment_count 11 } rfl hu
    rw [h1, h2]
    have : min (min st.payment_count 11) 11 = min st.payment_count 11 := by
      omega
    rw [this]
    rfl
  · intro st' hcount hu' hagree
    have h1 := hcap st rfl hu
    have h2 : get_total_paid st' ag =
        (List.range (min st'.payment_count 11)).foldl (gtpStep st' ag) 0 := by
      rcases le_or_lt st'.payment_count 11 with hle | hlt
      · rw [get_total_paid, Nat.min_eq_left hle]
      · rw [get_total_paid, Nat.min_eq_right (by omega),
          gtp_trunc st' ag hu' st'.payment_count (by omega)]
    rw [h1, h2, hcount]
    exact gtp_congr st st' ag hagree _
      (fun i hi => by
        have := List.mem_range.mp hi
        omega) 0

/-- Ledger store used by the C9 witness: a matching payment of 5 under id
"0", a matching payment of 7 under id "11" (unreachable by the loop), a
count of 13, and nothing under "unknown". -/
def exLS : LedgerStore :=
  { payments := fun k =>
      if k = "0" then (some ⟨"agr", 5⟩)
      else if k = "11" then (some ⟨"agr", 7⟩)
      else none
    payment_count := 13 }

/-- Witness for get_total_paid_key_range at the concrete store exLS: the
total over 13 recorded payments equals the total over the first 11 ids. -/
theorem get_total_paid_key_range_witness :
    exLS.payments "unknown" = none ∧
    get_total_paid exLS "agr" =
      get_total_paid { exLS with payment_count := min exLS.payment_count 11 } "agr" := by
  have h := get_total_paid_key_range exLS "agr" (by decide)
  exact ⟨by decide, h.2.1⟩

/-- Maximum data hash length, lib.rs line 10. -/
def MAX_DATA_HASH_LEN : Nat := 128

/-- Minimum seconds between profile updates, lib.rs line 11. -/
def MIN_UPDATE_INTERVAL : Nat := 60

/-- Modelled from the spec: UserProfile of types.rs, which is absent from
the repository snapshot; the five fields are exactly the ones update_profile
in lib.rs lines 232-238 constructs.  Accounts are identifiers (Nat) and the
data hash is a byte list. -/
structure UserProfile where
  account_id : Nat
  account_type : Nat
  data_hash : List Nat
  last_updated : Nat
  is_verified : Bool
deriving DecidableEq, Repr

/-- Persistent profile storage visible to update_profile: the persistent map
from accounts to profiles (DataKey::UserProfile). -/
structure ProfileStore where
  profiles : Nat → Option UserProfile

/-- validate_account_type of lib.rs lines 288-293: the account type must lie
in 1 ..= 3. -/
def validate_account_type (account_type : Nat) :
    Except ContractError Unit :=
  if account_type < 1 ∨ 3 < account_type then .error .InvalidAccountType
  else .ok ()

/-- validate_data_hash of lib.rs lines 295-300: the hash must be non-empty
and at most MAX_DATA_HASH_LEN bytes. -/
def validate_data_hash (data_hash : List Nat) : Except ContractError Unit :=
  if data_hash.isEmpty ∨ MAX_DATA_HASH_LEN < data_hash.length then
    .error .InvalidDataHash
  else .ok ()

/-- update_profile of lib.rs lines 203-245, modelled after
account.require_auth() has succeeded (an unauthenticated call traps in the
host and never reaches this logic).  Validates the account type and the data
hash; rejects with RateLimited when a stored profile exists whose
last_updated is within MIN_UPDATE_INTERVAL of `now` (saturating
subtraction, as in the source); otherwise stores a new profile carrying the
previous profile's is_verified flag (false when none existed) and
last_updated = now. -/
def update_profile (st : ProfileStore) (now : Nat) (account : Nat)
    (account_type : Nat) (data_hash : List Nat) :
    Except ContractError ProfileStore :=
  match validate_account_type account_type with
  | .error e => .error e
  | .ok _ =>
    match validate_data_hash data_hash with
    | .error e => .error e
    | .ok _ =>
      let rate_limited : Bool :=
        match st.profiles account with
        | some existing => now - existing.last_updated < MIN_UPDATE_INTERVAL
        | none => false
      if rate_limited then .error .RateLimited
      else
        let is_verified :=
          ((st.profiles account).map UserProfile.is_verified).getD false
        let profile : UserProfile :=
          ⟨account, account_type, data_hash, now, is_verified⟩
        .ok ⟨fun a => if a = account then some profile else st.profiles a⟩

/-- Transactional view of update_profile: on success the new store, on error
the unchanged prior store. -/
def commitP (st : ProfileStore) : Except ContractError ProfileStore → ProfileStore
  | .ok st' => st'
  | .error _ => st

/-- Claim C10: update_profile never changes the is_verified flag — the
stored profile after a successful call copies is_verified from the
previously stored profile for that account (false when no profile existed);
and a call whose inputs pass the stateless validations, made less than
MIN_UPDATE_INTERVAL = 60 seconds after the existing profile's last_updated,
fails with RateLimited and leaves the stored profile unchanged. -/
theorem update_profile_preserves_verified (st : ProfileStore) (now : Nat)
    (account account_type : Nat) (data_hash : List Nat) :
    (∀ st', update_profile st now account account_type data_hash = .ok st' →
      (st'.profiles account).map UserProfile.is_verified =
        some (((st.profiles account).map UserProfile.is_verified).getD false)) ∧
    (∀ existing, st.profiles account = some existing →
      now - existing.last_updated < MIN_UPDATE_INTERVAL →
      validate_account_type account_type = .ok () →
      validate_data_hash data_hash = .ok () →
      update_profile st now account account_type data_hash = .error .RateLimited ∧
      (commitP st
        (update_profile st now account account_type data_hash)).profiles account =
        some existing) := by
  constructor
  · intro st' hok
    rw [update_profile] at hok
    rcases hva : validate_account_type account_type with eva | uva
    · rw [hva] at hok
      simp at hok
    · rw [hva] at hok
      rcases hvd : validate_data_hash data_hash with evd | uvd
      · rw [hvd] at hok
        simp at hok
      · rw [hvd] at hok
        simp only at hok
        rcases hex : st.profiles account with _ | existing
        · rw [hex] at hok
          simp at hok
          rw [← hok]
          simp [hex]
        · rw [hex] at hok
          by_cases hrl : now - existing.last_updated < MIN_UPDATE_INTERVAL
          · simp [hrl] at hok
          · simp [hrl] at hok
            rw [← hok]
            simp [hex]
  · intro existing hex hrl hva hvd
    have herr : update_profile st now account account_type data_hash =
        .error .RateLimited := by
      rw [update_profile, hva, hvd]
      simp [hex, hrl]
    refine ⟨herr, ?_⟩
    rw [herr, commitP, hex]

/-- Profile store used by the C10 witness: account 4 holds a verified
profile last updated at time 100. -/
def exPS : ProfileStore :=
  ⟨fun a => if a = 4 then (some ⟨4, 1, [9], 100, true⟩) else none⟩

/-- Witness for update_profile_preserves_verified at the concrete store
exPS: an update of account 4 at time 200 succeeds and keeps is_verified =
true, an update of a fresh account 5 yields is_verified = false, and an
update of account 4 at time 130 (30 seconds after last_updated) fails with
RateLimited leaving the profile as it was. -/
theorem update_profile_preserves_verified_witness :
    (∀ st', update_profile exPS 200 4 2 [1, 2] = .ok st' →
      (st'.profiles 4).map UserProfile.is_verified = some true) ∧
    (∀ st', update_profile exPS 200 5 2 [1, 2] = .ok st' →
      (st'.profiles 5).map UserProfile.is_verified = some false) ∧
    update_profile exPS 130 4 2 [1, 2] = .error .RateLimited ∧
    (commitP exPS (update_profile exPS 130 4 2 [1, 2])).profiles 4 =
      some ⟨4, 1, [9], 100, true⟩ := by
  have h4 := (update_profile_preserves_verified exPS 200 4 2 [1, 2]).1
  have h5 := (update_profile_preserves_verified exPS 200 5 2 [1, 2]).1
  have hrl := (update_profile_preserves_verified exPS 130 4 2 [1, 2]).2
    ⟨4, 1, [9], 100, true⟩ (by decide) (by decide) rfl rfl
  refine ⟨?_, ?_, hrl.1, hrl.2⟩
  · intro st' hok
    have := h4 st' hok
    simpa using this
  · intro st' hok
    have := h5 st' hok
    simpa using this

end Chioma
